import Mathlib

/-!
Verification development for the Wisp protocol multiplexer server core.

Shallow embedding conventions:
* Byte buffers (`Uint8Array` / `WispBuffer`) are `List Nat`, each element a byte value.
* Multi-byte integers are little-endian, written with explicit `% 2^w` wrapping
  exactly where `DataView.setUintN` wraps.
* JavaScript strings that only flow through `TextEncoder`/`TextDecoder` round trips
  (hostnames, MOTD messages) are modelled by their UTF-8 byte sequences, so the
  encode/decode pair is the identity on the model.
* Fallible code (`DataView` range errors, `throw new TypeError`) returns `Except`
  or `Option`; each thrown error kind is one constructor.
* Asynchronous effects are reified: functions return the packets sent on the
  carrier and the log lines produced (as levels) alongside the updated state.
-/

set_option autoImplicit false

/-- Decidable equality for `Except`, used to evaluate the embedded fallible
functions on concrete inputs. -/
instance exceptDecEq {ε α : Type} [DecidableEq ε] [DecidableEq α] :
    DecidableEq (Except ε α) := fun a b =>
  match a, b with
  | .ok x, .ok y =>
    if h : x = y then isTrue (by rw [h])
    else isFalse (fun hc => by cases hc; exact h rfl)
  | .error x, .error y =>
    if h : x = y then isTrue (by rw [h])
    else isFalse (fun hc => by cases hc; exact h rfl)
  | .ok _, .error _ => isFalse (fun hc => by cases hc)
  | .error _, .ok _ => isFalse (fun hc => by cases hc)

namespace Wisp

/-- DataView little-endian write of a 16-bit value (`setUint16(i, n, true)`):
the value wraps modulo 2^16 and is laid out as two bytes, low first. -/
def u16le (n : Nat) : List Nat :=
  [n % 65536 % 256, n % 65536 / 256]

/-- DataView little-endian write of a 32-bit value (`setUint32(i, n, true)`):
the value wraps modulo 2^32 and is laid out as four bytes, low first. -/
def u32le (n : Nat) : List Nat :=
  [n % 4294967296 % 256,
   n % 4294967296 / 256 % 256,
   n % 4294967296 / 65536 % 256,
   n % 4294967296 / 16777216]

/-- DataView `getUint8(i)`: `none` models the RangeError thrown on an
out-of-bounds read. -/
def getU8 (b : List Nat) (i : Nat) : Option Nat :=
  b.get? i

/-- DataView `getUint16(i, true)`. -/
def getU16le (b : List Nat) (i : Nat) : Option Nat := do
  let b0 ← b.get? i
  let b1 ← b.get? (i + 1)
  pure (b0 + 256 * b1)

/-- DataView `getUint32(i, true)`. -/
def getU32le (b : List Nat) (i : Nat) : Option Nat := do
  let b0 ← b.get? i
  let b1 ← b.get? (i + 1)
  let b2 ← b.get? (i + 2)
  let b3 ← b.get? (i + 3)
  pure (b0 + 256 * b1 + 65536 * b2 + 16777216 * b3)

/-- `WispBuffer.slice(index)` = `Uint8Array.prototype.slice(index)`: the suffix
from `index`, clamped. -/
def slice_from (b : List Nat) (i : Nat) : List Nat :=
  b.drop i

/-- `WispBuffer.slice(start, end)` = `Uint8Array.prototype.slice(start, end)`;
the second argument (named `size` in the source) is an end index and is clamped
to the buffer length. -/
def js_slice (b : List Nat) (s e : Nat) : List Nat :=
  (b.take e).drop s

/-- Errors thrown by the packet and extension parsers.  `viewOOB` is the
RangeError a `DataView` accessor throws on an out-of-bounds read; the three
TypeErrors of `WispPacket.parse_all` get one constructor each. -/
inductive ParseErr where
  | packetTooSmall
  | invalidPacketType
  | payloadTooSmall
  | viewOOB
deriving DecidableEq

/-- The payload of a parsed packet, one constructor per payload class of
`packet.ts` (ConnectPayload, DataPayload, ContinuePayload, ClosePayload,
InfoPayload).  `hostname` holds the UTF-8 bytes of the hostname string. -/
inductive WispPayload where
  | connect (stream_type : Nat) (port : Nat) (hostname : List Nat)
  | data (bytes : List Nat)
  | cont (buffer_remaining : Nat)
  | close (reason : Nat)
  | info (major_ver : Nat) (minor_ver : Nat) (extensions : List Nat)
deriving DecidableEq

/-- A `WispPacket` whose `payload` field has been populated by `parse_all`
(or that is about to be serialized).  The `type` byte is stored separately
from the payload, as in the source class. -/
structure ParsedPacket where
  type : Nat
  stream_id : Nat
  payload : WispPayload
deriving DecidableEq

namespace stream_types

def TCP : Nat := 0x01

def UDP : Nat := 0x02

end stream_types

namespace close_reasons

def Unknown : Nat := 0x01

def Voluntary : Nat := 0x02

def NetworkError : Nat := 0x03

def InvalidInfo : Nat := 0x41

def HostBlocked : Nat := 0x48

def ConnThrottled : Nat := 0x49

end close_reasons

/-- Per-class payload serialization (`XPayload.prototype.serialize`). -/
def serialize_payload : WispPayload → List Nat
  | .connect stream_type port hostname => [stream_type % 256] ++ u16le port ++ hostname
  | .data bytes => bytes
  | .cont buffer_remaining => u32le buffer_remaining
  | .close reason => [reason % 256]
  | .info major_ver minor_ver extensions => [major_ver % 256, minor_ver % 256] ++ extensions

/-- `WispPacket.prototype.serialize`: type byte, stream id as u32-LE, then the
serialized payload. -/
def WispPacket.serialize (p : ParsedPacket) : List Nat :=
  [p.type % 256] ++ u32le p.stream_id ++ serialize_payload p.payload

/-- The `packet_classes` table: whether a payload class is registered for a
type byte. -/
def known_packet_type (t : Nat) : Bool :=
  t == 0x01 || t == 0x02 || t == 0x03 || t == 0x04 || t == 0x05

/-- `min_size` of the payload class registered for a type byte. -/
def payload_min_size (t : Nat) : Nat :=
  if t == 0x01 then 3
  else if t == 0x02 then 0
  else if t == 0x03 then 4
  else if t == 0x04 then 1
  else if t == 0x05 then 2
  else 0

/-- The `parse` static of the payload class registered for a type byte,
applied to the payload bytes.  `none` models a DataView RangeError. -/
def payload_parse (t : Nat) (b : List Nat) : Option WispPayload :=
  if t == 0x01 then do
    let st ← getU8 b 0
    let port ← getU16le b 1
    pure (.connect st port (slice_from b 3))
  else if t == 0x02 then
    pure (.data b)
  else if t == 0x03 then do
    let br ← getU32le b 0
    pure (.cont br)
  else if t == 0x04 then do
    let r ← getU8 b 0
    pure (.close r)
  else if t == 0x05 then do
    let ma ← getU8 b 0
    let mi ← getU8 b 1
    pure (.info ma mi (slice_from b 2))
  else
    none

/-- `WispPacket.parse_all`: require at least 5 bytes, read the header, look up
the payload class, enforce its minimum payload size, and parse the payload. -/
def parse_all (b : List Nat) : Except ParseErr ParsedPacket :=
  if b.length < 5 then .error .packetTooSmall
  else
    match getU8 b 0, getU32le b 1 with
    | some t, some sid =>
      let payload_bytes := slice_from b 5
      if !known_packet_type t then .error .invalidPacketType
      else if payload_bytes.length < payload_min_size t then .error .payloadTooSmall
      else
        match payload_parse t payload_bytes with
        | some pl => .ok ⟨t, sid, pl⟩
        | none => .error .viewOOB
    | _, _ => .error .viewOOB

/-- Well-formedness of a packet for the round-trip law: the type byte matches
the payload class and every numeric field is in the range of its wire width. -/
def packet_wf (p : ParsedPacket) : Bool :=
  decide (p.stream_id < 4294967296) &&
    match p.payload with
    | .connect st port _ => p.type == 0x01 && decide (st < 256) && decide (port < 65536)
    | .data _ => p.type == 0x02
    | .cont br => p.type == 0x03 && decide (br < 4294967296)
    | .close r => p.type == 0x04 && decide (r < 256)
    | .info ma mi _ => p.type == 0x05 && decide (ma < 256) && decide (mi < 256)

/-! ## Extension codec (`extensions.ts`) -/

/-- The concrete `BaseExtension` subclasses: `UDPExtension` (id 0x01) and
`MOTDExtension` (id 0x04). -/
inductive ExtKind where
  | udp
  | motd
deriving DecidableEq

def ExtKind.id : ExtKind → Nat
  | .udp => 0x01
  | .motd => 0x04

/-- The role an extension list is parsed for. -/
inductive Role where
  | client
  | server
deriving DecidableEq

/-- A parsed extension payload: `EmptyPayload`, or the MOTD server payload
(a UTF-8 message, kept as bytes). -/
inductive ExtPayload where
  | empty
  | motdMsg (message : List Nat)
deriving DecidableEq

/-- A `BaseExtension` instance produced by parsing. -/
structure ParsedExtension where
  id : Nat
  payload : ExtPayload
deriving DecidableEq

/-- `BaseExtension.parse(ext_class, buffer, role)`: the instance id comes from
the class, and the payload is parsed from `buffer.slice(5)` by the role's
payload class (`EmptyPayload.parse` ignores its argument; the MOTD server
payload is the decoded string of the whole slice). -/
def base_extension_parse (k : ExtKind) (buffer : List Nat) (role : Role) : ParsedExtension :=
  ⟨k.id,
    match k, role with
    | .udp, _ => .empty
    | .motd, .client => .empty
    | .motd, .server => .motdMsg (slice_from buffer 5)⟩

/-- A server-side extension instance carried in `wisp_extensions`
(constructed with a `server_config`). -/
inductive ServerExt where
  | udp
  | motd (message : List Nat)
deriving DecidableEq

def ServerExt.id : ServerExt → Nat
  | .udp => 0x01
  | .motd _ => 0x04

def ServerExt.kind : ServerExt → ExtKind
  | .udp => .udp
  | .motd _ => .motd

/-- `BaseExtension.prototype.serialize`: id byte (`setInt8` stores the low
byte), u32-LE payload length, then the payload bytes. -/
def serialize_server_ext (e : ServerExt) : List Nat :=
  let payload : List Nat :=
    match e with
    | .udp => []
    | .motd message => message
  [e.id % 256] ++ u32le payload.length ++ payload

/-- `serialize_extensions`: concatenation of the serialized records. -/
def serialize_extensions (exts : List ServerExt) : List Nat :=
  exts.foldl (fun acc e => acc ++ serialize_server_ext e) []

/-- Loop body of `parse_extensions`, with explicit fuel for structural
recursion.  Each iteration consumes at least five bytes of the buffer (the
advance is `slice(5 + ext_len)`), so `fuel = buffer length` always suffices
and the fuel-exhausted case coincides with the empty-buffer exit. -/
def parse_extensions_loop :
    Nat → List Nat → List ExtKind → Role → Except ParseErr (List ParsedExtension)
  | 0, _, _, _ => .ok []
  | fuel + 1, b, valid_extensions, role =>
    if b.length == 0 then .ok []
    else
      match getU8 b 0, getU32le b 1 with
      | some ext_id, some ext_len =>
        let ext_payload := js_slice b 0 (5 + ext_len)
        let parsed_here : List ParsedExtension :=
          match valid_extensions.find? (fun k => k.id == ext_id) with
          | some k => [base_extension_parse k ext_payload role]
          | none => []
        (parse_extensions_loop fuel (slice_from b (5 + ext_len)) valid_extensions role).map
          (fun rest => parsed_here ++ rest)
      | _, _ => .error .viewOOB

/-- `parse_extensions(payload_buffer, valid_extensions, role)`: repeatedly read
an id byte and a u32-LE length, slice out the record (`Uint8Array.slice`
clamps an over-long end index to the buffer), parse it when the id is in the
allow-list, and advance past it.  A read past the end of a buffer shorter
than a 5-byte header throws a RangeError (`viewOOB`). -/
def parse_extensions (b : List Nat) (valid_extensions : List ExtKind) (role : Role) :
    Except ParseErr (List ParsedExtension) :=
  parse_extensions_loop b.length b valid_extensions role

/-! ## Destination policy (`filter.ts`) -/

/-- A port list entry: a single port or an inclusive `[lo, hi]` range. -/
inductive PortEntry where
  | single (p : Nat)
  | range (lo hi : Nat)
deriving DecidableEq

/-- `check_port_range(entry, port)`. -/
def check_port_range (entry : PortEntry) (port : Nat) : Bool :=
  match entry with
  | .range lo hi => decide (lo ≤ port) && decide (port ≤ hi)
  | .single p => p == port

/-- `check_whitelist(entries, filter)`: true (meaning block) when no entry
matches. -/
def check_whitelist {T : Type} (entries : List T) (f : T → Bool) : Bool :=
  !(entries.any f)

/-- `check_blacklist(entries, filter)`: true when some entry matches. -/
def check_blacklist {T : Type} (entries : List T) (f : T → Bool) : Bool :=
  entries.any f

/-- The range classes `ipaddr.js` can assign to an address, as used by
`is_ip_blocked`; `unicast` stands for every range outside the blocked sets. -/
inductive IPRangeClass where
  | loopback
  | unspecified
  | broadcast
  | linkLocal
  | carrierGradeNat
  | privateRange
  | reserved
  | unicast
deriving DecidableEq

/-- The external `ipaddr.js` collaborator: literal-address validity and range
classification of a hostname's UTF-8 bytes. -/
structure IPClassifier where
  isValid : List Nat → Bool
  range : List Nat → IPRangeClass

/-- `check_ip_range(ip, range)`. -/
def check_ip_range (ipc : IPClassifier) (ip : List Nat) (ranges : List IPRangeClass) : Bool :=
  ranges.any (fun r => ipc.range ip == r)

/-- The process-wide `options` record (fields consulted by the embedded
functions).  Hostname patterns are abstract predicates standing for
`RegExp.prototype.test`; the stream limits are integers because `-1`
disables them. -/
structure WispOptions where
  hostname_blacklist : Option (List (List Nat → Bool))
  hostname_whitelist : Option (List (List Nat → Bool))
  port_blacklist : Option (List PortEntry)
  port_whitelist : Option (List PortEntry)
  allow_direct_ip : Bool
  allow_private_ips : Bool
  allow_loopback_ips : Bool
  stream_limit_per_host : Int
  stream_limit_total : Int
  allow_udp_streams : Bool
  allow_tcp_streams : Bool
  dns_ttl : Nat

/-- The defaults of `options.ts`. -/
def default_options : WispOptions where
  hostname_blacklist := none
  hostname_whitelist := none
  port_blacklist := none
  port_whitelist := none
  allow_direct_ip := true
  allow_private_ips := false
  allow_loopback_ips := false
  stream_limit_per_host := -1
  stream_limit_total := -1
  allow_udp_streams := true
  allow_tcp_streams := true
  dns_ttl := 120

/-- `is_ip_blocked(ip_str)`. -/
def is_ip_blocked (opts : WispOptions) (ipc : IPClassifier) (ip_str : List Nat) : Bool :=
  if !(ipc.isValid ip_str) then false
  else
    let loopback_ranges : List IPRangeClass := [.loopback, .unspecified]
    let private_ranges : List IPRangeClass :=
      [.broadcast, .linkLocal, .carrierGradeNat, .privateRange, .reserved]
    if !opts.allow_loopback_ips && check_ip_range ipc ip_str loopback_ranges then true
    else if !opts.allow_private_ips && check_ip_range ipc ip_str private_ranges then true
    else false

/-! ## Connection engine state (`connection.ts`) -/

/-- Log levels of `logging.ts`; log lines are recorded as their level. -/
inductive LogLevel where
  | debug
  | info
  | warn
  | error
deriving DecidableEq

/-- A `ServerStream`: its id, the destination socket's hostname/port, which
socket implementation was chosen, the object-mode `clientToTarget` buffer as
the queue of chunks it currently holds, and the counters and flags of the
class.  `ct_ended` records `clientToTarget.end()`, `socket_closed` records
`socket.close()`. -/
structure ServerStream where
  stream_id : Nat
  hostname : List Nat
  port : Nat
  is_tcp : Bool
  clientToTarget : List (List Nat)
  ct_ended : Bool
  socket_closed : Bool
  packets_sent : Nat
  closed : Bool
deriving DecidableEq

/-- `ServerStream.buffer_size`. -/
def buffer_size : Nat := 128

/-- The stream table of a `ServerConnection` (`streams: Record<number,
ServerStream>`), as an association list with unique keys; `Object.keys(...)
.length` is its length. -/
structure ServerConnection where
  streams : List (Nat × ServerStream)
deriving DecidableEq

/-- JS object property read `streams[id]`. -/
def lookup_stream : List (Nat × ServerStream) → Nat → Option ServerStream
  | [], _ => none
  | (k, v) :: rest, id => if k == id then some v else lookup_stream rest id

/-- JS object property write `streams[id] = st` (replaces, or appends a new
key). -/
def set_stream : List (Nat × ServerStream) → Nat → ServerStream → List (Nat × ServerStream)
  | [], id, st => [(id, st)]
  | (k, v) :: rest, id, st =>
    if k == id then (id, st) :: rest else (k, v) :: set_stream rest id st

/-- JS `delete streams[id]`. -/
def delete_stream : List (Nat × ServerStream) → Nat → List (Nat × ServerStream)
  | [], _ => []
  | (k, v) :: rest, id => if k == id then rest else (k, v) :: delete_stream rest id

/-- The per-host counting loop of `is_stream_allowed`: streams whose
`socket.hostname` equals the requested hostname. -/
def count_streams_to (ss : List (Nat × ServerStream)) (hostname : List Nat) : Nat :=
  (ss.filter (fun p => p.2.hostname == hostname)).length

/-- `is_stream_allowed(connection, type, hostname, port)`: the close reason
when denied, `0` when allowed.  `dns` abstracts `net.lookup_ip` as the filter
sees it: `none` models a lookup that threw (the `catch {}` keeps the
hostname). -/
def is_stream_allowed (opts : WispOptions) (ipc : IPClassifier)
    (dns : List Nat → Option (List Nat)) (connection : Option ServerConnection)
    (type : Nat) (hostname : List Nat) (port : Nat) : Nat :=
  if !opts.allow_tcp_streams && (type == stream_types.TCP) then close_reasons.HostBlocked
  else if !opts.allow_udp_streams && (type == stream_types.UDP) then close_reasons.HostBlocked
  else if (match opts.hostname_whitelist with
      | some wl => check_whitelist wl (fun entry => entry hostname)
      | none =>
        match opts.hostname_blacklist with
        | some bl => check_blacklist bl (fun entry => entry hostname)
        | none => false) then close_reasons.HostBlocked
  else if (match opts.port_whitelist with
      | some wl => check_whitelist wl (fun entry => check_port_range entry port)
      | none =>
        match opts.port_blacklist with
        | some bl => check_blacklist bl (fun entry => check_port_range entry port)
        | none => false) then close_reasons.HostBlocked
  else if ipc.isValid hostname && !opts.allow_direct_ip then close_reasons.HostBlocked
  else
    let ip_str := if ipc.isValid hostname then hostname else (dns hostname).getD hostname
    if is_ip_blocked opts ipc ip_str then close_reasons.HostBlocked
    else
      match connection with
      | none => 0
      | some conn =>
        if opts.stream_limit_total != -1 &&
            decide ((conn.streams.length : Int) ≥ opts.stream_limit_total) then
          close_reasons.ConnThrottled
        else if opts.stream_limit_per_host != -1 &&
            decide ((count_streams_to conn.streams hostname : Int) ≥ opts.stream_limit_per_host) then
          close_reasons.ConnThrottled
        else 0

/-- Result of `ServerConnection.create_stream`: the connection after the
synchronous insert, which socket implementation was instantiated, and the
close reason the spawned background task obtains from `is_stream_allowed`
(evaluated, as in the source, after the stream is already in the table). -/
structure CreateStreamResult where
  conn : ServerConnection
  is_tcp : Bool
  bg_close_reason : Nat
deriving DecidableEq

/-- `ServerConnection.create_stream(stream_id, type, hostname, port)`:
choose `TCPSocket` for `stream_types.TCP` and `UDPSocket` otherwise, build the
stream record, insert it into `streams`, then (in the background task)
evaluate the destination policy against the connection that already contains
the new stream. -/
def create_stream (opts : WispOptions) (ipc : IPClassifier)
    (dns : List Nat → Option (List Nat)) (conn : ServerConnection)
    (stream_id type : Nat) (hostname : List Nat) (port : Nat) : CreateStreamResult :=
  let is_tcp := type == stream_types.TCP
  let stream : ServerStream :=
    { stream_id := stream_id
      hostname := hostname
      port := port
      is_tcp := is_tcp
      clientToTarget := []
      ct_ended := false
      socket_closed := false
      packets_sent := 0
      closed := false }
  let conn2 : ServerConnection := ⟨set_stream conn.streams stream_id stream⟩
  let close_reason := is_stream_allowed opts ipc dns (some conn2) type hostname port
  ⟨conn2, is_tcp, close_reason⟩

/-- `ServerStream.prototype.close(reason)`: idempotent via `closed`; ends the
client-to-target buffer, closes the destination socket, and emits a CLOSE
packet on the carrier exactly when `reason` is non-null (`reason == null`
matches only null/undefined, so a numeric reason 0 still emits). -/
def ServerStream.close (st : ServerStream) (reason : Option Nat) :
    ServerStream × List ParsedPacket :=
  if st.closed then (st, [])
  else
    let st2 := { st with closed := true, ct_ended := true, socket_closed := true }
    match reason with
    | none => (st2, [])
    | some r => (st2, [⟨0x04, st.stream_id, .close r⟩])

/-- `ServerConnection.close_stream(stream_id, reason, quiet)`: no-op for an
unknown id; otherwise log (when the reason is truthy and not quiet), close the
stream, and delete it from the table.  Returns the new connection, the packets
sent on the carrier, and the log lines. -/
def close_stream (conn : ServerConnection) (stream_id : Nat) (reason : Option Nat)
    (quiet : Bool) : ServerConnection × List ParsedPacket × List LogLevel :=
  match lookup_stream conn.streams stream_id with
  | none => (conn, [], [])
  | some stream =>
    let logs : List LogLevel :=
      if (reason.getD 0 != 0) && !quiet then [.info] else []
    let (_, sent) := stream.close reason
    (⟨delete_stream conn.streams stream_id⟩, sent, logs)

/-- JS `String.prototype.trim` on the CONNECT hostname, modelled on the UTF-8
bytes for the ASCII whitespace characters. -/
def js_trim (b : List Nat) : List Nat :=
  let ws : List Nat := [9, 10, 11, 12, 13, 32]
  ((b.dropWhile (fun c => ws.contains c)).reverse.dropWhile (fun c => ws.contains c)).reverse

/-- What one `route_packet` call did: the updated connection, the packets sent
on the carrier, the log lines, and (for a CONNECT) the close reason computed
by the spawned stream-setup task. -/
structure RouteOut where
  conn : ServerConnection
  sent : List ParsedPacket
  logs : List LogLevel
  bg_close_reason : Option Nat
deriving DecidableEq

/-- `ServerConnection.route_packet(buffer)`: parse (parse errors propagate to
`run`, which logs and continues), then dispatch.  The source switches on
`packet.type`; since `parse_all` couples the type byte to the payload class,
the dispatch here matches on the payload constructor. -/
def route_packet (opts : WispOptions) (ipc : IPClassifier)
    (dns : List Nat → Option (List Nat)) (conn : ServerConnection)
    (buffer : List Nat) : Except ParseErr RouteOut :=
  match parse_all buffer with
  | .error e => .error e
  | .ok packet =>
  match packet.payload with
  | .data d =>
    match lookup_stream conn.streams packet.stream_id with
    | none => .ok ⟨conn, [], [.warn], none⟩
    | some stream =>
      let stream2 := { stream with clientToTarget := stream.clientToTarget ++ [d] }
      .ok ⟨⟨set_stream conn.streams packet.stream_id stream2⟩, [], [], none⟩
  | .connect stream_type port hostname =>
    let r := create_stream opts ipc dns conn packet.stream_id stream_type (js_trim hostname) port
    .ok ⟨r.conn, [], [.info], some r.bg_close_reason⟩
  | .cont _ => .ok ⟨conn, [], [.warn], none⟩
  | .close reason =>
    let (conn2, sent, logs) := close_stream conn packet.stream_id (some reason) false
    .ok ⟨conn2, sent, logs, none⟩
  | .info _ _ _ => .ok ⟨conn, [], [], none⟩

/-! ## Per-stream flow-control pump (`ServerStream.put_data` / `ws_to_tcp`)

The packet reader produces into the object-mode `clientToTarget` buffer
(`put_data` writes unconditionally; the high-water mark of 128 is advisory and
the write path never awaits drain) and the `ws_to_tcp` pump consumes one chunk
at a time, sending it to the destination socket.  A run of the stream is an
arbitrary interleaving of these two steps. -/

/-- A CONTINUE issuance recorded by the pump: the value of `packets_sent` when
it was issued, the `buffer_remaining` value computed
(`buffer_size - clientToTarget.readableLength`, an integer that the u32-LE
serializer would wrap), and the buffer depth (`readableLength`) at issuance. -/
structure ContinueRecord where
  sent_count : Nat
  value : Int
  depth : Nat
deriving DecidableEq

/-- The part of the stream state the two pump endpoints touch. -/
structure PumpState where
  buf : List (List Nat)
  packets_sent : Nat
deriving DecidableEq

/-- One scheduler step at a stream: either the packet reader delivers a DATA
payload (`put_data`), or the `ws_to_tcp` pump takes the next chunk, sends it
to the destination socket, increments `packets_sent`, and every
`buffer_size / 2` sends issues a CONTINUE with
`buffer_remaining = buffer_size - readableLength`. -/
inductive StreamEvent where
  | put (data : List Nat)
  | consume
deriving DecidableEq

/-- Effect of one event on the pump state, with the CONTINUEs it issues. -/
def pump_step (s : PumpState) (e : StreamEvent) : PumpState × List ContinueRecord :=
  match e with
  | .put d => ({ s with buf := s.buf ++ [d] }, [])
  | .consume =>
    match s.buf with
    | [] => (s, [])
    | _ :: rest =>
      let sent := s.packets_sent + 1
      let s2 : PumpState := ⟨rest, sent⟩
      if sent % (buffer_size / 2) != 0 then (s2, [])
      else (s2, [⟨sent, (buffer_size : Int) - rest.length, rest.length⟩])

/-- Fold step accumulating the CONTINUEs issued so far across pump events. -/
def pump_acc (acc : PumpState × List ContinueRecord) (e : StreamEvent) :
    PumpState × List ContinueRecord :=
  ((pump_step acc.1 e).1, acc.2 ++ (pump_step acc.1 e).2)

/-- Run a sequence of interleaved pump events, accumulating the CONTINUEs. -/
def pump_run (s : PumpState) (tr : List StreamEvent) : PumpState × List ContinueRecord :=
  tr.foldl pump_acc (s, [])

/-! ## DNS resolver facade (`net.ts`) -/

/-- A `dns_cache` entry: insertion timestamp from `Date.now()` (milliseconds),
and either the resolved address or a stored failure (the error value itself is
abstracted to a flag; a hit on it re-raises). -/
structure DnsCacheEntry where
  time : Nat
  address : Option (List Nat)
  error : Bool
deriving DecidableEq

/-- JS `Map.prototype.get` on the cache. -/
def cache_get : List (List Nat × DnsCacheEntry) → List Nat → Option DnsCacheEntry
  | [], _ => none
  | (k, v) :: rest, key => if k == key then some v else cache_get rest key

/-- JS `Map.prototype.set` on the cache. -/
def cache_set : List (List Nat × DnsCacheEntry) → List Nat → DnsCacheEntry →
    List (List Nat × DnsCacheEntry)
  | [], key, v => [(key, v)]
  | (k, w) :: rest, key, v =>
    if k == key then (key, v) :: rest else (k, w) :: cache_set rest key v

/-- `lookup_ip(hostname)`.  Parameters reify the environment: `is_node`
(DNS capability), `isIP` (`net.isIP`), `now` (`Date.now()`, milliseconds),
`perform` (the outcome `perform_lookup` would produce), and the current cache.
Returns the result (`.error` models a thrown error) and the updated cache.
The eviction pass deletes entries with `now - entry.time > dns_ttl`; the
subtraction is a difference of `Date.now()` millisecond values compared
directly against the `dns_ttl` option. -/
def lookup_ip (is_node : Bool) (isIP : List Nat → Nat) (dns_ttl : Nat) (now : Nat)
    (perform : Except Unit (List Nat)) (cache : List (List Nat × DnsCacheEntry))
    (hostname : List Nat) :
    Except Unit (List Nat) × List (List Nat × DnsCacheEntry) :=
  if !is_node then (.ok hostname, cache)
  else
    let ip_level := isIP hostname
    if ip_level == 4 || ip_level == 6 then (.ok hostname, cache)
    else
      let cache := cache.filter (fun e => !(decide (now - e.2.time > dns_ttl)))
      match cache_get cache hostname with
      | some entry =>
        if entry.error then (.error (), cache)
        else (.ok (entry.address.getD []), cache)
      | none =>
        match perform with
        | .ok address => (.ok address, cache_set cache hostname ⟨now, some address, false⟩)
        | .error e => (.error e, cache_set cache hostname ⟨now, none, true⟩)

/-! ## Version-2 handshake (`ServerConnection.setup_wisp_v2`) -/

/-- How `setup_wisp_v2` can fail: `handshake` is the `HandshakeError` it
throws itself; `parse e` is an uncaught error from `WispPacket.parse_all` or
`parse_extensions` propagating out of the call. -/
inductive SetupErr where
  | handshake
  | parse (e : ParseErr)
deriving DecidableEq

/-- The negotiated extension records: `server_exts` and `client_exts`, keyed
by extension id. -/
structure Negotiated where
  server_exts : List (Nat × ServerExt)
  client_exts : List (Nat × ParsedExtension)
deriving DecidableEq

/-- JS object write `record[id] = v` on the negotiated-extension records. -/
def assoc_set {α : Type} : List (Nat × α) → Nat → α → List (Nat × α)
  | [], key, v => [(key, v)]
  | (k, w) :: rest, key, v =>
    if k == key then (key, v) :: rest else (k, w) :: assoc_set rest key v

/-- The nested loops that intersect the client's extensions with the locally
advertised ones, in source order. -/
def negotiate (wisp_extensions : List ServerExt) (client_extensions : List ParsedExtension) :
    Negotiated :=
  client_extensions.foldl
    (fun acc client_ext =>
      wisp_extensions.foldl
        (fun acc2 server_ext =>
          if server_ext.id == client_ext.id then
            ⟨assoc_set acc2.server_exts server_ext.id server_ext,
             assoc_set acc2.client_exts client_ext.id client_ext⟩
          else acc2)
        acc)
    ⟨[], []⟩

/-- Everything observable about one `setup_wisp_v2` call: packets sent on the
carrier, the outcome, whether `cleanup()` ran, and the log lines. -/
structure HandshakeOut where
  sent : List ParsedPacket
  result : Except SetupErr Negotiated
  cleaned : Bool
  logs : List LogLevel

/-- `ServerConnection.setup_wisp_v2()`: send the INFO packet with the locally
advertised extensions, then receive one message (`data`; `none` is a closed
carrier).  A null message and an unexpected (non-INFO) packet type log at
warn, run `cleanup()`, and throw `HandshakeError`; a message `parse_all`
rejects — and an extension list `parse_extensions` rejects — makes the thrown
error propagate out with no log and no cleanup.  No CLOSE packet is emitted on
any path; `cleanup()` closes the streams (none exist during the handshake)
with a null reason and closes the carrier.  The source checks
`packet.type !== InfoPayload.type`; as `parse_all` couples the type byte to
the payload class, the check here matches on the payload constructor. -/
def setup_wisp_v2 (wisp_version : Nat) (wisp_extensions : List ServerExt)
    (data : Option (List Nat)) : HandshakeOut :=
  let ext_buffer := serialize_extensions wisp_extensions
  let sent : List ParsedPacket := [⟨0x05, 0, .info wisp_version 0 ext_buffer⟩]
  match data with
  | none => ⟨sent, .error .handshake, true, [.warn]⟩
  | some bytes =>
    match parse_all bytes with
    | .error e => ⟨sent, .error (.parse e), false, []⟩
    | .ok packet =>
      match packet.payload with
      | .info _ _ extensions =>
        match parse_extensions extensions (wisp_extensions.map ServerExt.kind) .client with
        | .error e => ⟨sent, .error (.parse e), false, []⟩
        | .ok client_extensions =>
          ⟨sent, .ok (negotiate wisp_extensions client_extensions), false, []⟩
      | _ => ⟨sent, .error .handshake, true, [.warn]⟩

/-! ## Concrete collaborator stubs for closed evaluations -/

/-- An `ipaddr.js` stub for hosts that are not literal addresses: `isValid`
is false everywhere (so no range is ever consulted). -/
def null_ipc : IPClassifier := ⟨fun _ => false, fun _ => .unicast⟩

/-- A DNS oracle whose lookups always throw (the `catch {}` in the filter
then keeps the hostname). -/
def null_dns : List Nat → Option (List Nat) := fun _ => none

/-- A freshly created stream record with a given id, as `create_stream`
builds it for a TCP CONNECT to an empty hostname. -/
def sample_stream (id : Nat) : ServerStream :=
  ⟨id, [], 0, true, [], false, false, 0, false⟩

/-- The default options with `stream_limit_total` set to 1. -/
def opts_total_one : WispOptions :=
  { default_options with stream_limit_total := 1 }

/-- The default options with `stream_limit_per_host` set to 1. -/
def opts_per_host_one : WispOptions :=
  { default_options with stream_limit_per_host := 1 }

/-- The default options with both TCP and UDP streams forbidden. -/
def opts_no_kinds : WispOptions :=
  { default_options with allow_tcp_streams := false, allow_udp_streams := false }

/-- The `packets_sent` values at which `ws_to_tcp` has issued its first `k`
CONTINUE packets: the first `k` positive multiples of `buffer_size / 2`. -/
def continue_marks (k : Nat) : List Nat :=
  (List.range k).map (fun i => (buffer_size / 2) * (i + 1))

/-! ## Helper lemmas -/

lemma u32le_cons (n : Nat) :
    u32le n = [n % 4294967296 % 256, n % 4294967296 / 256 % 256,
      n % 4294967296 / 65536 % 256, n % 4294967296 / 16777216] := rfl

lemma u16le_cons (n : Nat) : u16le n = [n % 65536 % 256, n % 65536 / 256] := rfl

lemma u32_recompose (n : Nat) (h : n < 4294967296) :
    n % 4294967296 % 256 + 256 * (n % 4294967296 / 256 % 256) +
      65536 * (n % 4294967296 / 65536 % 256) +
      16777216 * (n % 4294967296 / 16777216) = n := by
  omega

lemma u16_recompose (n : Nat) (h : n < 65536) :
    n % 65536 % 256 + 256 * (n % 65536 / 256) = n := by
  omega

/-- `parse_all` on a buffer presented as header bytes plus payload. -/
lemma parse_all_cons (t b0 b1 b2 b3 : Nat) (pb : List Nat) :
    parse_all (t :: b0 :: b1 :: b2 :: b3 :: pb) =
      (if !known_packet_type t then .error .invalidPacketType
       else if pb.length < payload_min_size t then .error .payloadTooSmall
       else
         match payload_parse t pb with
         | some pl => .ok ⟨t, b0 + 256 * b1 + 65536 * b2 + 16777216 * b3, pl⟩
         | none => .error .viewOOB) := by
  have hlen : ¬ ((t :: b0 :: b1 :: b2 :: b3 :: pb).length < 5) := by
    simp [List.length_cons]
  rw [parse_all, if_neg hlen]
  rfl

/-- C6 round trip, CONNECT payload. -/
lemma roundtrip_connect (sid st port : Nat) (host : List Nat)
    (hsid : sid < 4294967296) (hst : st < 256) (hport : port < 65536) :
    parse_all (WispPacket.serialize ⟨0x01, sid, .connect st port host⟩) =
      .ok ⟨0x01, sid, .connect st port host⟩ := by
  have hser : WispPacket.serialize ⟨0x01, sid, .connect st port host⟩ =
      0x01 :: (sid % 4294967296 % 256) :: (sid % 4294967296 / 256 % 256) ::
        (sid % 4294967296 / 65536 % 256) :: (sid % 4294967296 / 16777216) ::
        ((st % 256) :: (port % 65536 % 256) :: (port % 65536 / 256) :: host) := by
    simp [WispPacket.serialize, serialize_payload, u32le_cons, u16le_cons]
  rw [hser, parse_all_cons]
  have hm : known_packet_type 0x01 = true := rfl
  have hms : payload_min_size 0x01 = 3 := rfl
  simp only [hm, Bool.not_true, if_false, hms]
  have hpl : ¬ (((st % 256) :: (port % 65536 % 256) :: (port % 65536 / 256) :: host).length < 3) := by
    simp [List.length_cons]
  rw [if_neg hpl]
  have hparse : payload_parse 0x01
      ((st % 256) :: (port % 65536 % 256) :: (port % 65536 / 256) :: host) =
      some (.connect st port host) := by
    simp [payload_parse, getU8, getU16le, List.get?, slice_from, Nat.mod_eq_of_lt hst,
      u16_recompose port hport]
  rw [hparse]
  simp [u32_recompose sid hsid]

/-- C6 round trip, DATA payload. -/
lemma roundtrip_data (sid : Nat) (bytes : List Nat) (hsid : sid < 4294967296) :
    parse_all (WispPacket.serialize ⟨0x02, sid, .data bytes⟩) =
      .ok ⟨0x02, sid, .data bytes⟩ := by
  have hser : WispPacket.serialize ⟨0x02, sid, .data bytes⟩ =
      0x02 :: (sid % 4294967296 % 256) :: (sid % 4294967296 / 256 % 256) ::
        (sid % 4294967296 / 65536 % 256) :: (sid % 4294967296 / 16777216) :: bytes := by
    simp [WispPacket.serialize, serialize_payload, u32le_cons]
  rw [hser, parse_all_cons]
  have hm : known_packet_type 0x02 = true := rfl
  have hms : payload_min_size 0x02 = 0 := rfl
  simp only [hm, Bool.not_true, if_false, hms, Nat.not_lt_zero]
  have hparse : payload_parse 0x02 bytes = some (.data bytes) := rfl
  rw [hparse]
  simp [u32_recompose sid hsid]

/-- C6 round trip, CONTINUE payload. -/
lemma roundtrip_continue (sid br : Nat) (hsid : sid < 4294967296) (hbr : br < 4294967296) :
    parse_all (WispPacket.serialize ⟨0x03, sid, .cont br⟩) = .ok ⟨0x03, sid, .cont br⟩ := by
  have hser : WispPacket.serialize ⟨0x03, sid, .cont br⟩ =
      0x03 :: (sid % 4294967296 % 256) :: (sid % 4294967296 / 256 % 256) ::
        (sid % 4294967296 / 65536 % 256) :: (sid % 4294967296 / 16777216) ::
        ((br % 4294967296 % 256) :: (br % 4294967296 / 256 % 256) ::
          (br % 4294967296 / 65536 % 256) :: (br % 4294967296 / 16777216) :: []) := by
    simp [WispPacket.serialize, serialize_payload, u32le_cons]
  rw [hser, parse_all_cons]
  have hm : known_packet_type 0x03 = true := rfl
  have hms : payload_min_size 0x03 = 4 := rfl
  simp only [hm, Bool.not_true, if_false, hms]
  have hpl : ¬ (((br % 4294967296 % 256) :: (br % 4294967296 / 256 % 256) ::
      (br % 4294967296 / 65536 % 256) :: (br % 4294967296 / 16777216) :: []).length < 4) := by
    simp [List.length_cons]
  rw [if_neg hpl]
  have hparse : payload_parse 0x03
      ((br % 4294967296 % 256) :: (br % 4294967296 / 256 % 256) ::
        (br % 4294967296 / 65536 % 256) :: (br % 4294967296 / 16777216) :: []) =
      some (.cont br) := by
    simp [payload_parse, getU32le, List.get?, u32_recompose br hbr]
  rw [hparse]
  simp [u32_recompose sid hsid]

/-- C6 round trip, CLOSE payload. -/
lemma roundtrip_close (sid r : Nat) (hsid : sid < 4294967296) (hr : r < 256) :
    parse_all (WispPacket.serialize ⟨0x04, sid, .close r⟩) = .ok ⟨0x04, sid, .close r⟩ := by
  have hser : WispPacket.serialize ⟨0x04, sid, .close r⟩ =
      0x04 :: (sid % 4294967296 % 256) :: (sid % 4294967296 / 256 % 256) ::
        (sid % 4294967296 / 65536 % 256) :: (sid % 4294967296 / 16777216) ::
        ((r % 256) :: []) := by
    simp [WispPacket.serialize, serialize_payload, u32le_cons]
  rw [hser, parse_all_cons]
  have hm : known_packet_type 0x04 = true := rfl
  have hms : payload_min_size 0x04 = 1 := rfl
  simp only [hm, Bool.not_true, if_false, hms]
  have hpl : ¬ (((r % 256) :: []).length < 1) := by
    simp [List.length_cons]
  rw [if_neg hpl]
  have hparse : payload_parse 0x04 ((r % 256) :: []) = some (.close r) := by
    simp [payload_parse, getU8, List.get?, Nat.mod_eq_of_lt hr]
  rw [hparse]
  simp [u32_recompose sid hsid]

/-- C6 round trip, INFO payload. -/
lemma roundtrip_info (sid ma mi : Nat) (exts : List Nat)
    (hsid : sid < 4294967296) (hma : ma < 256) (hmi : mi < 256) :
    parse_all (WispPacket.serialize ⟨0x05, sid, .info ma mi exts⟩) =
      .ok ⟨0x05, sid, .info ma mi exts⟩ := by
  have hser : WispPacket.serialize ⟨0x05, sid, .info ma mi exts⟩ =
      0x05 :: (sid % 4294967296 % 256) :: (sid % 4294967296 / 256 % 256) ::
        (sid % 4294967296 / 65536 % 256) :: (sid % 4294967296 / 16777216) ::
        ((ma % 256) :: (mi % 256) :: exts) := by
    simp [WispPacket.serialize, serialize_payload, u32le_cons]
  rw [hser, parse_all_cons]
  have hm : known_packet_type 0x05 = true := rfl
  have hms : payload_min_size 0x05 = 2 := rfl
  simp only [hm, Bool.not_true, if_false, hms]
  have hpl : ¬ (((ma % 256) :: (mi % 256) :: exts).length < 2) := by
    simp [List.length_cons]
  rw [if_neg hpl]
  have hparse : payload_parse 0x05 ((ma % 256) :: (mi % 256) :: exts) =
      some (.info ma mi exts) := by
    simp [payload_parse, getU8, List.get?, slice_from, Nat.mod_eq_of_lt hma,
      Nat.mod_eq_of_lt hmi]
  rw [hparse]
  simp [u32_recompose sid hsid]

/-- C6: serializing any well-formed packet and parsing the buffer back with
the full parser yields the original packet (type, stream id, payload fields
equal), for every packet type, close reason code and stream-kind code in
range. -/
theorem c6_encode_decode_id (p : ParsedPacket) (h : packet_wf p = true) :
    parse_all (WispPacket.serialize p) = .ok p := by
  obtain ⟨t, sid, pl⟩ := p
  cases pl with
  | connect st port host =>
    simp only [packet_wf, Bool.and_eq_true, beq_iff_eq, decide_eq_true_eq] at h
    obtain ⟨hsid, ⟨ht, hst⟩, hport⟩ := h
    subst ht
    exact roundtrip_connect sid st port host hsid hst hport
  | data bytes =>
    simp only [packet_wf, Bool.and_eq_true, beq_iff_eq, decide_eq_true_eq] at h
    obtain ⟨hsid, ht⟩ := h
    subst ht
    exact roundtrip_data sid bytes hsid
  | cont br =>
    simp only [packet_wf, Bool.and_eq_true, beq_iff_eq, decide_eq_true_eq] at h
    obtain ⟨hsid, ht, hbr⟩ := h
    subst ht
    exact roundtrip_continue sid br hsid hbr
  | close r =>
    simp only [packet_wf, Bool.and_eq_true, beq_iff_eq, decide_eq_true_eq] at h
    obtain ⟨hsid, ht, hr⟩ := h
    subst ht
    exact roundtrip_close sid r hsid hr
  | info ma mi exts =>
    simp only [packet_wf, Bool.and_eq_true, beq_iff_eq, decide_eq_true_eq] at h
    obtain ⟨hsid, ⟨ht, hma⟩, hmi⟩ := h
    subst ht
    exact roundtrip_info sid ma mi exts hsid hma hmi

/-- C6 witness: the round trip at a concrete CONNECT packet (TCP kind, port
80, hostname bytes of a two-character name). -/
theorem c6_encode_decode_id_witness :
    packet_wf ⟨0x01, 7, .connect 1 80 [101, 120]⟩ = true ∧
      parse_all (WispPacket.serialize ⟨0x01, 7, .connect 1 80 [101, 120]⟩) =
        .ok ⟨0x01, 7, .connect 1 80 [101, 120]⟩ :=
  ⟨by decide, c6_encode_decode_id ⟨0x01, 7, .connect 1 80 [101, 120]⟩ (by decide)⟩

lemma continue_marks_succ (k : Nat) :
    continue_marks (k + 1) = continue_marks k ++ [(buffer_size / 2) * (k + 1)] := by
  simp [continue_marks, List.range_succ]

/-- One pump event preserves the CONTINUE-issuance bookkeeping: the recorded
issuance counts are exactly the first `packets_sent / (B/2)` positive
multiples of `B/2`. -/
lemma pump_acc_marks (s : PumpState) (cs : List ContinueRecord) (e : StreamEvent)
    (h : cs.map ContinueRecord.sent_count =
      continue_marks (s.packets_sent / (buffer_size / 2))) :
    (pump_acc (s, cs) e).2.map ContinueRecord.sent_count =
      continue_marks ((pump_acc (s, cs) e).1.packets_sent / (buffer_size / 2)) := by
  have hb2 : buffer_size / 2 = 64 := rfl
  rw [hb2] at h ⊢
  cases e with
  | put d => simpa [pump_acc, pump_step] using h
  | consume =>
    cases hb : s.buf with
    | nil => simpa [pump_acc, pump_step, hb] using h
    | cons x rest =>
      by_cases hdvd : (s.packets_sent + 1) % 64 = 0
      · have h1 : (s.packets_sent + 1) / 64 = s.packets_sent / 64 + 1 := by omega
        have h2 : (buffer_size / 2) * (s.packets_sent / 64 + 1) = s.packets_sent + 1 := by
          rw [hb2]
          omega
        simp only [pump_acc, pump_step, hb, hb2, hdvd, bne_self_eq_false,
          Bool.false_eq_true, if_false, List.map_append, List.map_cons, List.map_nil]
        rw [h, h1, continue_marks_succ, h2]
      · have hne : ((s.packets_sent + 1) % 64 != 0) = true := by
          simpa using hdvd
        have h1 : (s.packets_sent + 1) / 64 = s.packets_sent / 64 := by omega
        simp only [pump_acc, pump_step, hb, hb2, hne, if_true, List.append_nil]
        rw [h1]
        exact h

lemma pump_foldl_marks (tr : List StreamEvent) :
    ∀ (s : PumpState) (cs : List ContinueRecord),
      cs.map ContinueRecord.sent_count = continue_marks (s.packets_sent / (buffer_size / 2)) →
      ((tr.foldl pump_acc (s, cs)).2.map ContinueRecord.sent_count =
        continue_marks ((tr.foldl pump_acc (s, cs)).1.packets_sent / (buffer_size / 2))) := by
  induction tr with
  | nil =>
    intro s cs h
    simpa using h
  | cons e tr ih =>
    intro s cs h
    rw [List.foldl_cons]
    exact ih (pump_acc (s, cs) e).1 (pump_acc (s, cs) e).2 (pump_acc_marks s cs e h)

lemma pump_step_value (s : PumpState) (e : StreamEvent) :
    ∀ c ∈ (pump_step s e).2, c.value = (buffer_size : Int) - c.depth := by
  cases e with
  | put d => simp [pump_step]
  | consume =>
    cases hb : s.buf with
    | nil => simp [pump_step, hb]
    | cons x rest =>
      by_cases hdvd : ((s.packets_sent + 1) % (buffer_size / 2) != 0) = true
      · simp [pump_step, hb, hdvd]
      · simp only [Bool.not_eq_true] at hdvd
        simp [pump_step, hb, hdvd]

lemma pump_foldl_value (tr : List StreamEvent) :
    ∀ (s : PumpState) (cs : List ContinueRecord),
      (∀ c ∈ cs, c.value = (buffer_size : Int) - c.depth) →
      ∀ c ∈ (tr.foldl pump_acc (s, cs)).2, c.value = (buffer_size : Int) - c.depth := by
  induction tr with
  | nil =>
    intro s cs h
    simpa using h
  | cons e tr ih =>
    intro s cs h
    rw [List.foldl_cons]
    refine ih (pump_acc (s, cs) e).1 (pump_acc (s, cs) e).2 ?_
    intro c hc
    rcases List.mem_append.1 hc with hc1 | hc2
    · exact h c hc1
    · exact pump_step_value s e c hc2

/-- C7: in any interleaving of client deliveries and pump sends on a fresh
stream, the `packets_sent` values at which CONTINUE packets have been issued
are exactly the positive multiples of `buffer_size / 2 = 64`: a CONTINUE is
issued exactly when the send counter reaches a multiple of `B/2`, so exactly
`B/2` chunks are consumed and sent to the destination socket between two
consecutive CONTINUEs. -/
theorem c7_continue_every_64_sends (tr : List StreamEvent) :
    (pump_run ⟨[], 0⟩ tr).2.map ContinueRecord.sent_count =
      continue_marks ((pump_run ⟨[], 0⟩ tr).1.packets_sent / (buffer_size / 2)) :=
  pump_foldl_marks tr ⟨[], 0⟩ [] (by simp [continue_marks])

set_option maxRecDepth 100000 in
/-- C2 counterexample: `put_data` never blocks, so 193 DATA deliveries with
no intervening pump progress leave 193 > 128 entries in the per-stream
buffer; and after 64 sends the CONTINUE issued carries
`buffer_remaining = 128 − 129 = −1`, outside `[0, B]`. -/
theorem c2_buffer_bound_counterexample :
    (pump_run ⟨[], 0⟩ (List.replicate 193 (StreamEvent.put []))).1.buf.length = 193 ∧
    buffer_size < (pump_run ⟨[], 0⟩ (List.replicate 193 (StreamEvent.put []))).1.buf.length ∧
    (pump_run ⟨[], 0⟩ (List.replicate 193 (StreamEvent.put []) ++
      List.replicate 64 StreamEvent.consume)).2 = [⟨64, -1, 129⟩] := by
  decide

/-- C2 as amended: every CONTINUE the pump issues carries
`buffer_remaining = buffer_size − depth` where `depth` is the buffer depth at
issuance time; the depth is not bounded by `buffer_size` and the value can be
negative, so it need not lie in `[0, B]`. -/
theorem c2_continue_reports_depth (tr : List StreamEvent) (c : ContinueRecord)
    (hc : c ∈ (pump_run ⟨[], 0⟩ tr).2) :
    c.value = (buffer_size : Int) - c.depth :=
  pump_foldl_value tr ⟨[], 0⟩ [] (by simp) c hc

set_option maxRecDepth 100000 in
/-- C2 witness: the amended law evaluated on a trace of 64 deliveries
followed by 64 sends, whose single CONTINUE is issued at depth 0 with value
128. -/
theorem c2_continue_reports_depth_witness :
    (⟨64, 128, 0⟩ : ContinueRecord).value =
      (buffer_size : Int) - (⟨64, 128, 0⟩ : ContinueRecord).depth :=
  c2_continue_reports_depth
    (List.replicate 64 (StreamEvent.put []) ++ List.replicate 64 StreamEvent.consume)
    ⟨64, 128, 0⟩ (by decide)

/-- C1 counterexample: a CLOSE packet for existing stream 7 with
client-supplied reason 0x02 makes the server emit a reply CLOSE (same stream,
same reason) back on the carrier, contradicting "no reply CLOSE is
emitted". -/
theorem c1_close_reply_counterexample :
    route_packet default_options null_ipc null_dns ⟨[(7, sample_stream 7)]⟩
        [0x04, 7, 0, 0, 0, 0x02] =
      .ok ⟨⟨[]⟩, [⟨0x04, 7, .close 0x02⟩], [.info], none⟩ := by
  decide

/-- C1 as amended: for every CLOSE packet received for an existing,
not-yet-closed stream, the server tears the stream down with the
client-supplied reason (the stream leaves the table, its buffer is ended and
its socket closed) and, because the reason is passed straight through to
`ServerStream.close`, it emits a reply CLOSE on the carrier carrying that
reason — peer-originated teardown is not distinguished from local
teardown. -/
theorem c1_close_teardown_echoes (opts : WispOptions) (ipc : IPClassifier)
    (dns : List Nat → Option (List Nat)) (conn : ServerConnection)
    (buffer : List Nat) (pkt : ParsedPacket) (r : Nat) (st : ServerStream)
    (hp : parse_all buffer = .ok pkt) (hpl : pkt.payload = .close r)
    (hs : lookup_stream conn.streams pkt.stream_id = some st)
    (hc : st.closed = false) :
    route_packet opts ipc dns conn buffer =
      .ok ⟨⟨delete_stream conn.streams pkt.stream_id⟩,
        [⟨0x04, st.stream_id, .close r⟩],
        if r = 0 then [] else [LogLevel.info], none⟩ := by
  have hcs : close_stream conn pkt.stream_id (some r) false =
      (⟨delete_stream conn.streams pkt.stream_id⟩,
        [⟨0x04, st.stream_id, .close r⟩],
        if r = 0 then [] else [LogLevel.info]) := by
    by_cases hr : r = 0
    · subst hr
      simp [close_stream, hs, ServerStream.close, hc]
    · simp [close_stream, hs, ServerStream.close, hc, hr]
  obtain ⟨pt, psid, ppl⟩ := pkt
  simp only at hpl hs hcs ⊢
  subst hpl
  unfold route_packet
  rw [hp]
  dsimp only
  rw [hcs]

/-- C1 witness for the amended claim: stream 9, reason 3. -/
theorem c1_close_teardown_echoes_witness :
    route_packet default_options null_ipc null_dns ⟨[(9, sample_stream 9)]⟩
        [0x04, 9, 0, 0, 0, 0x03] =
      .ok ⟨⟨[]⟩, [⟨0x04, 9, .close 0x03⟩], [LogLevel.info], none⟩ := by
  have h := c1_close_teardown_echoes default_options null_ipc null_dns
    ⟨[(9, sample_stream 9)]⟩ [0x04, 9, 0, 0, 0, 0x03] ⟨0x04, 9, .close 0x03⟩ 3
    (sample_stream 9) (by decide) rfl (by decide) rfl
  simpa using h

/-- C8: a DATA packet whose stream id is not in the stream table is logged at
warn and dropped: the call returns normally (no parse or routing error), no
packet is emitted on the carrier, and the connection — including the stream
table and every stream in it — is returned unchanged. -/
theorem c8_unknown_data_dropped (opts : WispOptions) (ipc : IPClassifier)
    (dns : List Nat → Option (List Nat)) (conn : ServerConnection)
    (buffer : List Nat) (pkt : ParsedPacket) (d : List Nat)
    (hp : parse_all buffer = .ok pkt) (hpl : pkt.payload = .data d)
    (hs : lookup_stream conn.streams pkt.stream_id = none) :
    route_packet opts ipc dns conn buffer = .ok ⟨conn, [], [LogLevel.warn], none⟩ := by
  obtain ⟨pt, psid, ppl⟩ := pkt
  simp only at hpl hs ⊢
  subst hpl
  unfold route_packet
  rw [hp]
  dsimp only
  rw [hs]

/-- C8 witness: DATA for stream 9 on a connection with an empty stream
table. -/
theorem c8_unknown_data_dropped_witness :
    route_packet default_options null_ipc null_dns ⟨[]⟩ [0x02, 9, 0, 0, 0] =
      .ok ⟨⟨[]⟩, [], [LogLevel.warn], none⟩ :=
  c8_unknown_data_dropped default_options null_ipc null_dns ⟨[]⟩
    [0x02, 9, 0, 0, 0] ⟨0x02, 9, .data []⟩ [] (by decide) rfl rfl

/-- C3: evaluation of `lookup_ip` at the failing input.  A cache entry for
hostname `[104]` was stored at time 0 with address `[49]`; a second lookup
happens 1000 milliseconds (one second) later with the default
`dns_ttl = 120`.  The spec says the entry (1 s old, far within 120 seconds)
must be served from the cache, but the eviction pass compares the
millisecond age 1000 directly against 120, evicts the entry, and performs a
fresh resolution: the result is the new address `[50]` and the cache holds a
new entry — even though the age is well under `dns_ttl` seconds expressed in
milliseconds. -/
theorem c3_ttl_compared_in_milliseconds :
    lookup_ip true (fun _ => 0) 120 1000 (.ok [50])
        [([104], ⟨0, some [49], false⟩)] [104] =
      (.ok [50], [([104], ⟨1000, some [50], false⟩)]) ∧
    1000 - 0 ≤ 120 * 1000 := by
  exact ⟨by decide, by norm_num⟩

/-- The INFO packet `setup_wisp_v2` sends on entry is its only carrier
output, on every path. -/
lemma setup_wisp_v2_sent (v : Nat) (exts : List ServerExt) (data : Option (List Nat)) :
    (setup_wisp_v2 v exts data).sent =
      [⟨0x05, 0, .info v 0 (serialize_extensions exts)⟩] := by
  unfold setup_wisp_v2
  cases data with
  | none => rfl
  | some bytes =>
    dsimp only
    cases parse_all bytes with
    | error e => rfl
    | ok pkt =>
      obtain ⟨pt, psid, ppl⟩ := pkt
      cases ppl with
      | info ma mi ex =>
        dsimp only
        cases parse_extensions ex (exts.map ServerExt.kind) .client with
        | error e => rfl
        | ok ce => rfl
      | connect st port host => rfl
      | data d => rfl
      | cont br => rfl
      | close r => rfl

/-- C4 counterexample: a malformed handshake message (3 bytes, shorter than a
packet header) makes the `parse_all` TypeError propagate out of
`setup_wisp_v2` — not a `HandshakeError` — with no warn log and without
`cleanup()` running. -/
theorem c4_malformed_handshake_counterexample :
    (setup_wisp_v2 2 [] (some [1, 2, 3])).result = .error (.parse .packetTooSmall) ∧
    (setup_wisp_v2 2 [] (some [1, 2, 3])).cleaned = false ∧
    (setup_wisp_v2 2 [] (some [1, 2, 3])).logs = [] :=
  ⟨rfl, rfl, rfl⟩

/-- C4 as amended: during the v2 handshake, a carrier that closes before the
client INFO (null message) and a message parsing to a non-INFO packet are
logged at warn, clean the connection up, and surface `HandshakeError`; but a
message that fails to parse as a packet makes the parse error itself escape
the setup call with no log and no cleanup; and no path emits a CLOSE packet
(in particular no InvalidInfo CLOSE is ever sent). -/
theorem c4_handshake_paths (v : Nat) (exts : List ServerExt) (data : Option (List Nat)) :
    (data = none →
      (setup_wisp_v2 v exts data).result = .error .handshake ∧
      (setup_wisp_v2 v exts data).cleaned = true ∧
      (setup_wisp_v2 v exts data).logs = [LogLevel.warn]) ∧
    (∀ bytes e, data = some bytes → parse_all bytes = .error e →
      (setup_wisp_v2 v exts data).result = .error (.parse e) ∧
      (setup_wisp_v2 v exts data).cleaned = false ∧
      (setup_wisp_v2 v exts data).logs = []) ∧
    (∀ bytes pkt, data = some bytes → parse_all bytes = .ok pkt →
      (∀ ma mi ex, pkt.payload ≠ .info ma mi ex) →
      (setup_wisp_v2 v exts data).result = .error .handshake ∧
      (setup_wisp_v2 v exts data).cleaned = true ∧
      (setup_wisp_v2 v exts data).logs = [LogLevel.warn]) ∧
    (∀ p ∈ (setup_wisp_v2 v exts data).sent, p.type ≠ 0x04) := by
  refine ⟨?_, ?_, ?_, ?_⟩
  · rintro rfl
    exact ⟨rfl, rfl, rfl⟩
  · rintro bytes e rfl hpe
    unfold setup_wisp_v2
    dsimp only
    rw [hpe]
    exact ⟨rfl, rfl, rfl⟩
  · rintro bytes pkt rfl hpk hnot
    unfold setup_wisp_v2
    dsimp only
    rw [hpk]
    obtain ⟨pt, psid, ppl⟩ := pkt
    cases ppl with
    | info ma mi ex => exact absurd rfl (hnot ma mi ex)
    | connect st port host => exact ⟨rfl, rfl, rfl⟩
    | data d => exact ⟨rfl, rfl, rfl⟩
    | cont br => exact ⟨rfl, rfl, rfl⟩
    | close r => exact ⟨rfl, rfl, rfl⟩
  · intro p hp
    rw [setup_wisp_v2_sent] at hp
    simp only [List.mem_singleton] at hp
    subst hp
    show (5 : Nat) ≠ 4
    decide

/-- C4 witness: the three handshake paths at concrete inputs — a closed
carrier, a 3-byte malformed message, and a CONTINUE packet instead of the
INFO. -/
theorem c4_handshake_paths_witness :
    (setup_wisp_v2 2 [] none).result = .error .handshake ∧
    (setup_wisp_v2 2 [] none).cleaned = true ∧
    (setup_wisp_v2 2 [] (some [1, 2, 3])).result = .error (.parse .packetTooSmall) ∧
    (setup_wisp_v2 2 [] (some [1, 2, 3])).cleaned = false ∧
    (setup_wisp_v2 2 [] (some [3, 0, 0, 0, 0, 1, 0, 0, 0])).result = .error .handshake := by
  have h1 := (c4_handshake_paths 2 [] none).1 rfl
  have h2 := (c4_handshake_paths 2 [] (some [1, 2, 3])).2.1 [1, 2, 3] .packetTooSmall rfl
    (by decide)
  have h3 := (c4_handshake_paths 2 [] (some [3, 0, 0, 0, 0, 1, 0, 0, 0])).2.2.1
    [3, 0, 0, 0, 0, 1, 0, 0, 0] ⟨3, 0, .cont 1⟩ rfl (by decide)
    (fun ma mi ex h => WispPayload.noConfusion h)
  exact ⟨h1.1, h1.2.1, h2.1, h2.2.1, h3.1⟩

lemma parse_extensions_loop_nil (fuel : Nat) (valid_extensions : List ExtKind) (role : Role) :
    parse_extensions_loop fuel [] valid_extensions role = .ok [] := by
  cases fuel <;> rfl

/-- C5 counterexample: an extension record declaring a u32-LE length of 100
with only one byte left in the buffer is not rejected: the slice clamps, the
record is parsed and accepted, and the list parse returns successfully
(there is no MalformedExtensions failure). -/
theorem c5_no_malformed_error_counterexample :
    parse_extensions [0x01, 100, 0, 0, 0, 7] [ExtKind.udp] .client =
      .ok [⟨0x01, .empty⟩] := by
  decide

/-- C5 as amended: a record whose declared u32-LE length exceeds the bytes
remaining in the buffer is clamped by `Uint8Array.slice`, accepted (parsed
against the truncated slice when its id is in the allow-list, skipped
otherwise), and ends the parse: the result is a success, not a
MalformedExtensions error. -/
theorem c5_overlong_length_clamped (b : List Nat) (valid_extensions : List ExtKind)
    (role : Role) (ext_id ext_len : Nat)
    (h0 : getU8 b 0 = some ext_id) (h1 : getU32le b 1 = some ext_len)
    (hover : b.length < 5 + ext_len) :
    parse_extensions b valid_extensions role =
      .ok (match valid_extensions.find? (fun k => k.id == ext_id) with
        | some k => [base_extension_parse k (js_slice b 0 (5 + ext_len)) role]
        | none => []) := by
  have hb : b ≠ [] := by
    intro h
    subst h
    simp [getU8] at h0
  obtain ⟨n, hn⟩ : ∃ n, b.length = n + 1 := by
    cases b with
    | nil => exact absurd rfl hb
    | cons x xs => exact ⟨xs.length, by simp⟩
  have hdrop : slice_from b (5 + ext_len) = [] := by
    simp [slice_from, List.drop_eq_nil_iff]
    omega
  unfold parse_extensions
  rw [hn]
  simp only [parse_extensions_loop, hn, h0, h1, hdrop, parse_extensions_loop_nil]
  simp [Except.map]

/-- C5 witness for the amended claim: a single MOTD record declaring length
10 in a 5-byte buffer parses (server role) to an empty message. -/
theorem c5_overlong_length_clamped_witness :
    parse_extensions [0x04, 10, 0, 0, 0] [ExtKind.motd] .server =
      .ok [⟨0x04, .motdMsg []⟩] := by
  have h := c5_overlong_length_clamped [0x04, 10, 0, 0, 0] [ExtKind.motd] .server 4 10
    rfl rfl (by decide)
  exact h.trans (by decide)

lemma set_stream_length_fresh (ss : List (Nat × ServerStream)) (id : Nat) (st : ServerStream)
    (h : lookup_stream ss id = none) :
    (set_stream ss id st).length = ss.length + 1 := by
  induction ss with
  | nil => rfl
  | cons kv rest ih =>
    obtain ⟨k, v⟩ := kv
    by_cases hk : (k == id) = true
    · rw [lookup_stream, if_pos hk] at h
      cases h
    · rw [lookup_stream, if_neg hk] at h
      simp only [set_stream, if_neg hk, List.length_cons]
      rw [ih h]

lemma count_streams_to_set_fresh (ss : List (Nat × ServerStream)) (id : Nat)
    (st : ServerStream) (host : List Nat) (h : lookup_stream ss id = none) :
    count_streams_to (set_stream ss id st) host =
      count_streams_to ss host + (if (st.hostname == host) = true then 1 else 0) := by
  induction ss with
  | nil =>
    by_cases hh : (st.hostname == host) = true <;>
      simp [count_streams_to, set_stream, List.filter, hh]
  | cons kv rest ih =>
    obtain ⟨k, v⟩ := kv
    by_cases hk : (k == id) = true
    · rw [lookup_stream, if_pos hk] at h
      cases h
    · rw [lookup_stream, if_neg hk] at h
      have ihh := ih h
      simp only [set_stream, if_neg hk]
      by_cases hv : (v.hostname == host) = true <;>
        simp [count_streams_to, List.filter_cons, hv] at ihh ⊢ <;>
        omega

/-- C9: `create_stream` inserts the new stream into the table before the
spawned task evaluates `is_stream_allowed`, so the quota checks count the
stream being created.  With `stream_limit_total = N` a CONNECT is denied with
ConnThrottled when `N − 1` other streams exist, and with
`stream_limit_per_host = M` a CONNECT is denied when `M − 1` other streams to
the same hostname exist (so `stream_limit_per_host = 1` denies every
CONNECT). -/
theorem c9_quota_counts_created_stream (o1 o2 : WispOptions) (ipc : IPClassifier)
    (dns : List Nat → Option (List Nat)) (conn1 conn2 : ServerConnection)
    (id ty port : Nat) (host : List Nat) (N M : Nat) :
    (o1.allow_tcp_streams = true → o1.allow_udp_streams = true →
     o1.hostname_whitelist = none → o1.hostname_blacklist = none →
     o1.port_whitelist = none → o1.port_blacklist = none →
     ipc.isValid host = false →
     is_ip_blocked o1 ipc ((dns host).getD host) = false →
     o1.stream_limit_total = (N : Int) → 1 ≤ N →
     lookup_stream conn1.streams id = none → conn1.streams.length = N - 1 →
     (create_stream o1 ipc dns conn1 id ty host port).bg_close_reason =
       close_reasons.ConnThrottled) ∧
    (o2.allow_tcp_streams = true → o2.allow_udp_streams = true →
     o2.hostname_whitelist = none → o2.hostname_blacklist = none →
     o2.port_whitelist = none → o2.port_blacklist = none →
     ipc.isValid host = false →
     is_ip_blocked o2 ipc ((dns host).getD host) = false →
     o2.stream_limit_total = -1 →
     o2.stream_limit_per_host = (M : Int) → 1 ≤ M →
     lookup_stream conn2.streams id = none →
     count_streams_to conn2.streams host = M - 1 →
     (create_stream o2 ipc dns conn2 id ty host port).bg_close_reason =
       close_reasons.ConnThrottled) := by
  constructor
  · intro hat hau hw hb hpw hpb hvalid hip hlim hN hfresh hlen
    have hlen2 : (set_stream conn1.streams id
        ⟨id, host, port, (ty == stream_types.TCP), [], false, false, 0, false⟩).length = N := by
      rw [set_stream_length_fresh conn1.streams id _ hfresh, hlen]
      omega
    have hne : ((N : Int) != -1) = true := by
      simp only [bne_iff_ne, ne_eq]
      omega
    simp only [create_stream, is_stream_allowed, hat, hau, hw, hb, hpw, hpb, hvalid, hip,
      hlim, Bool.not_true, Bool.false_and, Bool.false_eq_true, if_false, hlen2, hne,
      Bool.true_and]
    simp [hlen2]
  · intro hat hau hw hb hpw hpb hvalid hip hlimtot hlim hM hfresh hcount
    have hcount2 : count_streams_to (set_stream conn2.streams id
        ⟨id, host, port, (ty == stream_types.TCP), [], false, false, 0, false⟩) host = M := by
      rw [count_streams_to_set_fresh conn2.streams id _ host hfresh, hcount]
      simp only [beq_self_eq_true, if_true]
      omega
    have hne : ((M : Int) != -1) = true := by
      simp only [bne_iff_ne, ne_eq]
      omega
    simp only [create_stream, is_stream_allowed, hat, hau, hw, hb, hpw, hpb, hvalid, hip,
      hlimtot, hlim, Bool.not_true, Bool.false_and, Bool.false_eq_true, if_false,
      bne_self_eq_false, hne, Bool.true_and]
    simp [hcount2]

/-- C9 witness: with `stream_limit_total = 1` and no existing streams, and
with `stream_limit_per_host = 1` and no existing streams, a TCP CONNECT is
denied with ConnThrottled (the created stream counts itself). -/
theorem c9_quota_counts_created_stream_witness :
    (create_stream opts_total_one null_ipc null_dns
      ⟨[]⟩ 1 1 [104] 80).bg_close_reason = close_reasons.ConnThrottled ∧
    (create_stream opts_per_host_one null_ipc null_dns
      ⟨[]⟩ 1 1 [104] 80).bg_close_reason = close_reasons.ConnThrottled := by
  constructor
  · exact (c9_quota_counts_created_stream opts_total_one opts_total_one
      null_ipc null_dns ⟨[]⟩ ⟨[]⟩
      1 1 80 [104] 1 1).1 rfl rfl rfl rfl rfl rfl rfl (by decide) rfl (by decide) rfl rfl
  · exact (c9_quota_counts_created_stream opts_per_host_one opts_per_host_one
      null_ipc null_dns ⟨[]⟩ ⟨[]⟩
      1 1 80 [104] 1 1).2 rfl rfl rfl rfl rfl rfl rfl (by decide) rfl rfl (by decide) rfl rfl

/-- C10: a CONNECT whose stream-kind byte is neither 1 (TCP) nor 2 (UDP) gets
a UDP destination socket (the implementation choice is a two-way ternary on
`type === TCP`), and the TCP/UDP gates of `is_stream_allowed` do not deny it
even with both `allow_tcp_streams` and `allow_udp_streams` false: with every
other check passing and the quotas disabled the policy answer is 0
(allowed). -/
theorem c10_nonstandard_kind_is_udp (opts : WispOptions) (ipc : IPClassifier)
    (dns : List Nat → Option (List Nat)) (conn : ServerConnection)
    (id ty port : Nat) (host : List Nat)
    (h1 : ty ≠ stream_types.TCP) (h2 : ty ≠ stream_types.UDP)
    (h3 : opts.allow_tcp_streams = false) (h4 : opts.allow_udp_streams = false)
    (h5 : opts.hostname_whitelist = none) (h6 : opts.hostname_blacklist = none)
    (h7 : opts.port_whitelist = none) (h8 : opts.port_blacklist = none)
    (h9 : ipc.isValid host = false)
    (h10 : is_ip_blocked opts ipc ((dns host).getD host) = false)
    (h11 : opts.stream_limit_total = -1) (h12 : opts.stream_limit_per_host = -1) :
    (create_stream opts ipc dns conn id ty host port).is_tcp = false ∧
    (create_stream opts ipc dns conn id ty host port).bg_close_reason = 0 := by
  have hbt : (ty == stream_types.TCP) = false := by
    simpa using h1
  have hbu : (ty == stream_types.UDP) = false := by
    simpa using h2
  refine ⟨by simp [create_stream, hbt], ?_⟩
  simp only [create_stream, is_stream_allowed, hbt, hbu, h3, h4, h5, h6, h7, h8, h9, h10,
    h11, h12, Bool.not_false, Bool.and_false, Bool.false_eq_true, if_false,
    bne_self_eq_false, Bool.false_and]

/-- C10 witness: kind byte 3 with both kind gates closed. -/
theorem c10_nonstandard_kind_is_udp_witness :
    (create_stream opts_no_kinds null_ipc null_dns ⟨[]⟩ 1 3 [104] 80).is_tcp = false ∧
    (create_stream opts_no_kinds null_ipc null_dns ⟨[]⟩ 1 3 [104] 80).bg_close_reason = 0 :=
  c10_nonstandard_kind_is_udp opts_no_kinds null_ipc null_dns ⟨[]⟩ 1 3 80 [104]
    (by decide) (by decide) rfl rfl rfl rfl rfl rfl rfl (by decide) rfl rfl

end Wisp
